import Mathlib

/-!
Shallow embedding of `src/src/Wt/Auth/PasswordHash.C` (Wt::Auth::PasswordHash)
and of the verification subsystem its specification describes around it.

The source file defines exactly two constructors of a three-string record:
the default constructor (all `std::string` members default-initialize to the
empty string) and a parameterized constructor that copies its three arguments
into the fields verbatim.  The verifier, hash-function registry and
constant-time comparison are described in the specification but have no code
in the repository snapshot; they are modelled from the spec's words and are
marked as such.
-/

namespace WtAuth

/-- Embedding of the `Wt::Auth::PasswordHash` record: three `std::string`
fields `function_`, `salt_`, `value_` (modelled as Lean `String`). -/
structure PasswordHash where
  function_ : String
  salt_ : String
  value_ : String

/-- Embedding of `PasswordHash::PasswordHash()` (PasswordHash.C lines 12-13):
the body is empty, so every `std::string` member is default-initialized to the
empty string. -/
def mkDefault : PasswordHash :=
  { function_ := "", salt_ := "", value_ := "" }

/-- Embedding of
`PasswordHash::PasswordHash(const std::string&, const std::string&, const std::string&)`
(PasswordHash.C lines 15-21): each argument is copied into the corresponding
field, with no validation or transformation. -/
def mkFields (function salt value : String) : PasswordHash :=
  { function_ := function, salt_ := salt, value_ := value }

/-- The spec's "unset" invariant on a record: if `function` is empty then
`salt` and `value` are empty as well. -/
def unsetInvariant (h : PasswordHash) : Prop :=
  h.function_ = "" → h.salt_ = "" ∧ h.value_ = ""

/-- The operations the source file defines on the type: a call to one of its
two constructors, with the caller-supplied arguments. -/
inductive CtorCall where
  | defaultCtor : CtorCall
  | fieldsCtor (function salt value : String) : CtorCall

/-- The record a constructor call produces. -/
def runCtor : CtorCall → PasswordHash
  | .defaultCtor => mkDefault
  | .fieldsCtor f s v => mkFields f s v

/-- The program state the constructors can touch: the records constructed so
far, in construction order. -/
abbrev Heap := List PasswordHash

/-- Executing a constructor call against a state: the source constructors take
no existing record as input, so the call allocates a fresh record and appends
it; it mentions no other state. -/
def applyCtor (c : CtorCall) (heap : Heap) : Heap :=
  heap ++ [runCtor c]

/-- Modelled from the spec: a hash-function implementation, "polymorphic over
compute(password, salt) → value"; only `compute` is needed by the verifier.
No code for it is in the repository snapshot. -/
structure HashFunction where
  compute : String → String → String

/-- Modelled from the spec: the hash-function registry, mapping a function
identifier (such as bcrypt, pbkdf2, sha1) to an implementation.
No code for it is in the repository snapshot. -/
abbrev Registry := List (String × HashFunction)

/-- Modelled from the spec: `get(identifier)` "returns the implementation or
fails with UnknownAlgorithm when absent" (absence is `none` here). -/
def Registry.get (r : Registry) (id : String) : Option HashFunction :=
  (r.find? (fun e => e.1 == id)).map (fun e => e.2)

/-- Modelled from the spec: the verifier's result type, `VerifyResult` with
the outcomes Valid, Invalid and UnknownAlgorithm. -/
inductive VerifyResult where
  | Valid : VerifyResult
  | Invalid : VerifyResult
  | UnknownAlgorithm : VerifyResult

/-- Modelled from the spec: the constant-time byte-comparison loop, which
"never short-circuit[s] on first differing byte": it walks both sequences to
the end of the shorter one, folding every byte comparison into the
accumulator, and also returns the number of byte-comparison steps it took
(the cost model for the timing claim). -/
def ctCompareRun : List Char → List Char → Bool → Bool × Nat
  | x :: xs, y :: ys, acc =>
      let r := ctCompareRun xs ys (acc && (x == y))
      (r.1, r.2 + 1)
  | [], [], acc => (acc, 0)
  | _, _, _ => (false, 0)

/-- Modelled from the spec: constant-time equality of two byte strings: the
(public) lengths are compared, then every byte pair is compared without
short-circuiting. -/
def ctEqual (a b : String) : Bool :=
  a.data.length == b.data.length && (ctCompareRun a.data b.data true).1

/-- Modelled from the spec:
`verify(password: string, hash: PasswordHash) → VerifyResult`:
if `hash.function` is empty the result is `Invalid`; else the function is
looked up in the registry, absence giving `UnknownAlgorithm`; else
`implementation.compute(password, hash.salt)` is recomputed and compared
against `hash.value` with the constant-time comparison.
No code for it is in the repository snapshot. -/
def verify (r : Registry) (password : String) (hash : PasswordHash) :
    VerifyResult :=
  if hash.function_ = "" then .Invalid
  else
    match r.get hash.function_ with
    | none => .UnknownAlgorithm
    | some impl =>
        if ctEqual (impl.compute password hash.salt_) hash.value_ then .Valid
        else .Invalid

end WtAuth

namespace WtAuth

/-- C3: the default `PasswordHash` constructor yields the "unset" sentinel:
`function_`, `salt_` and `value_` are all the empty string. -/
theorem defaultCtor_unset_sentinel :
    mkDefault.function_ = "" ∧ mkDefault.salt_ = "" ∧ mkDefault.value_ = "" :=
  ⟨rfl, rfl, rfl⟩

/-- C2: the parameterized `PasswordHash` constructor stores its three
arguments verbatim in `function_`, `salt_` and `value_`, for every triple of
strings, with no transformation, rejection or validation. -/
theorem paramCtor_fields_verbatim (f s v : String) :
    (mkFields f s v).function_ = f ∧ (mkFields f s v).salt_ = s ∧
      (mkFields f s v).value_ = v :=
  ⟨rfl, rfl, rfl⟩

/-- C9: the record from the default constructor is field-wise equal to the
record from the parameterized constructor applied to three empty strings. -/
theorem defaultCtor_eq_paramCtor_empty :
    mkDefault.function_ = (mkFields "" "" "").function_ ∧
      mkDefault.salt_ = (mkFields "" "" "").salt_ ∧
      mkDefault.value_ = (mkFields "" "" "").value_ :=
  ⟨rfl, rfl, rfl⟩

/-- C1 counterexample: the parameterized constructor does not enforce the
"empty iff unset" invariant: called with an empty `function` but a non-empty
`salt` and `value` it produces a record with `function_ = ""` whose `salt_`
and `value_` are not empty, violating the claimed invariant. -/
theorem paramCtor_invariant_counterexample :
    ¬ unsetInvariant (mkFields "" "x" "y") :=
  fun h => absurd (h rfl).1 (by decide)

/-- C1 (amended): the record from the default constructor satisfies the
"empty iff unset" invariant, and a record from the parameterized constructor
satisfies it exactly when the caller-supplied arguments do; the constructor
copies the arguments verbatim and does not enforce the invariant. -/
theorem unset_invariant_amended :
    unsetInvariant mkDefault ∧
      ∀ f s v : String,
        (unsetInvariant (mkFields f s v) ↔ (f = "" → s = "" ∧ v = "")) :=
  ⟨fun _ => ⟨rfl, rfl⟩, fun _ _ _ => Iff.rfl⟩

/-- C4: no operation of the type mutates an existing record: executing either
constructor against a state leaves every already-constructed record unchanged
and only appends one fresh record. -/
theorem ctor_preserves_existing_records (c : CtorCall) (heap : Heap) (i : Nat)
    (h : i < heap.length) :
    (applyCtor c heap)[i]? = heap[i]? ∧
      (applyCtor c heap).length = heap.length + 1 := by
  constructor
  · simp [applyCtor, List.getElem?_append, h]
  · simp [applyCtor]

/-- C4 witness: a concrete state with one record, unchanged at index 0 by a
further constructor call. -/
theorem ctor_preserves_existing_records_witness :
    (applyCtor .defaultCtor [mkFields "a" "b" "c"])[0]? =
        [mkFields "a" "b" "c"][0]? ∧
      (applyCtor .defaultCtor [mkFields "a" "b" "c"]).length =
        [mkFields "a" "b" "c"].length + 1 :=
  ctor_preserves_existing_records .defaultCtor [mkFields "a" "b" "c"] 0
    (by decide)

/-- C10: both constructors are deterministic and side-effect free: the freshly
constructed record is the same whatever the prior state (the call reads no
outside state), and the prior state's records are all preserved (the call
writes no outside state); as pure functions, two calls with the same
arguments yield the identical record. -/
theorem ctor_deterministic_stateless (c : CtorCall) (h₁ h₂ : Heap) :
    (applyCtor c h₁).getLast? = (applyCtor c h₂).getLast? ∧
      (applyCtor c h₁).take h₁.length = h₁ ∧
      runCtor c = runCtor c := by
  refine ⟨?_, ?_, rfl⟩
  · simp [applyCtor]
  · simp [applyCtor, List.take_left]

/-- Helper: the constant-time loop visits every byte pair: the accumulated
result threads through, so on equal inputs with a true accumulator it stays
true. -/
theorem ctCompareRun_self_fst (xs : List Char) (acc : Bool) :
    (ctCompareRun xs xs acc).1 = acc := by
  induction xs generalizing acc with
  | nil => rfl
  | cons x xs ih => simp [ctCompareRun, ih]

/-- Helper: constant-time equality is reflexive. -/
theorem ctEqual_self (s : String) : ctEqual s s = true := by
  simp [ctEqual, ctCompareRun_self_fst]

/-- C5: `verify` on an unset record (empty `function_`) is `Invalid` for
every password, including the empty one, and every registry. -/
theorem verify_unset_invalid (r : Registry) (password : String)
    (hash : PasswordHash) (h : hash.function_ = "") :
    verify r password hash = .Invalid := by
  simp [verify, h]

/-- C5 witness: the empty password against the default-constructed record and
an empty registry. -/
theorem verify_unset_invalid_witness :
    verify [] "" mkDefault = .Invalid :=
  verify_unset_invalid [] "" mkDefault rfl

/-- C6: `verify` against a record whose non-empty `function_` is absent from
the registry returns `UnknownAlgorithm`, and so never `Valid` nor
`Invalid`. -/
theorem verify_unknown_algorithm (r : Registry) (password : String)
    (hash : PasswordHash) (h₁ : hash.function_ ≠ "")
    (h₂ : r.get hash.function_ = none) :
    verify r password hash = .UnknownAlgorithm ∧
      verify r password hash ≠ .Valid ∧ verify r password hash ≠ .Invalid := by
  have : verify r password hash = .UnknownAlgorithm := by
    simp [verify, h₁, h₂]
  exact ⟨this, by simp [this], by simp [this]⟩

/-- C6 witness: a record naming "sha1" against the empty registry. -/
theorem verify_unknown_algorithm_witness :
    verify [] "pw" (mkFields "sha1" "s" "v") = .UnknownAlgorithm ∧
      verify [] "pw" (mkFields "sha1" "s" "v") ≠ .Valid ∧
      verify [] "pw" (mkFields "sha1" "s" "v") ≠ .Invalid :=
  verify_unknown_algorithm [] "pw" (mkFields "sha1" "s" "v") (by decide) rfl

/-- C7: round-trip: for every password and salt, verifying the password
against the record built from a registered function's own computed hash
returns `Valid` (function identifiers are non-empty by the spec's data
model). -/
theorem verify_compute_roundtrip (r : Registry) (fn : String)
    (impl : HashFunction) (password salt : String) (hfn : fn ≠ "")
    (hget : r.get fn = some impl) :
    verify r password (mkFields fn salt (impl.compute password salt)) =
      .Valid := by
  simp [verify, mkFields, hfn, hget, ctEqual_self]

/-- C7 witness: a one-entry registry whose implementation appends the salt to
the password, at a concrete password and salt. -/
theorem verify_compute_roundtrip_witness :
    verify [("app", ⟨fun p s => p ++ s⟩)] "hunter2"
        (mkFields "app" "abc"
          (HashFunction.compute ⟨fun p s => p ++ s⟩ "hunter2" "abc")) =
      .Valid :=
  verify_compute_roundtrip [("app", ⟨fun p s => p ++ s⟩)] "app"
    ⟨fun p s => p ++ s⟩ "hunter2" "abc" (by decide) rfl

/-- C8: the comparison loop is constant-time: the number of byte-comparison
steps it takes equals the length of the shorter input, whatever the byte
contents and the accumulator, so the running time does not depend on the
position of the first differing byte and the loop never short-circuits on a
mismatch. -/
theorem ctCompare_constant_time (a b : List Char) (acc : Bool) :
    (ctCompareRun a b acc).2 = min a.length b.length := by
  induction a generalizing b acc with
  | nil => cases b <;> simp [ctCompareRun]
  | cons x xs ih =>
      cases b with
      | nil => simp [ctCompareRun]
      | cons y ys => simp [ctCompareRun, ih, Nat.succ_min_succ]

end WtAuth
